import Mathlib

/-!
Shallow embedding of the in-memory fixed-window rate limiter found at the end
of `packages/lib/envValidation.ts` (the rate-limit middleware section):
the module-level `store` Map, the periodic cleanup `setInterval` loop,
the `rateLimit(options)` middleware factory, and the pre-configured policy
constants `apiRateLimit`, `authRateLimit`, `uploadRateLimit`,
`searchRateLimit`.

Timestamps (`Date.now()` values) are modelled as natural numbers of
milliseconds.  The JavaScript `Map<string, RequestCount>` is modelled as an
association list with unique keys kept in insertion order, which is exactly
the iteration/update semantics of a JS Map.  JS objects are mutated in
place (`requestCount.count++` updates the object already stored in the map),
so in the functional model every check call writes the incremented record
back with `storeSet`, which updates an existing key in place and appends a
new key at the end, just as `Map.set` does.

The middleware body can also invoke two effectful collaborators on the
denial path: `logger.warn` and the optional `onRateLimitReached` hook.  The
source wraps neither in try/catch, so a thrown error propagates out of the
middleware.  Both collaborators are modelled by `Except String Unit`
parameters describing whether the call succeeds or throws, and the check
result is `Except String Decision`: `Except.error e` is the middleware
terminating with an uncaught exception `e`.
-/

set_option autoImplicit false

namespace RateLimiter

/-- `interface RequestCount { count: number; resetTime: number; }`. -/
structure RequestCount where
  count : Nat
  resetTime : Nat
deriving DecidableEq

/-- `const store = new Map<string, RequestCount>()` — one module-level map,
shared by every middleware produced by `rateLimit`. -/
abbrev Store := List (String × RequestCount)

/-- `store.get(key)`: first (unique) entry with a matching key. -/
def storeGet : Store → String → Option RequestCount
  | [], _ => none
  | (k, v) :: rest, key => if k = key then some v else storeGet rest key

/-- `store.set(key, value)`: update an existing key in place, otherwise
append at the end (JS Map insertion-order semantics). -/
def storeSet : Store → String → RequestCount → Store
  | [], key, val => [(key, val)]
  | (k, v) :: rest, key, val =>
      if k = key then (k, val) :: rest else (k, v) :: storeSet rest key val

/-- `store.delete(key)`: remove the entry with a matching key. -/
def storeDelete : Store → String → Store
  | [], _ => []
  | (k, v) :: rest, key => if k = key then rest else (k, v) :: storeDelete rest key

/-- A JS `Map` never holds two entries with the same key; every store
reachable from the empty map through `storeSet`/`storeDelete` satisfies
this. -/
def storeWF (s : Store) : Prop := (s.map Prod.fst).Nodup

instance (s : Store) : Decidable (storeWF s) := by
  unfold storeWF; infer_instance

/-- The fields of `RateLimitOptions` that are plain data.  `keyGenerator`
and `onRateLimitReached` are modelled as separate parameters of the check
function (the derived key, and the hook's outcome). -/
structure RateLimitOptions where
  windowMs : Nat
  maxRequests : Nat
  skipSuccessfulRequests : Bool := false
  skipFailedRequests : Bool := false
deriving DecidableEq

/-- The observable outcome of one middleware invocation:
either the 429 rejection (`res.status(429).json({...}); return;`) with its
body fields, or the allowed path which sets the three `X-RateLimit-*`
headers and calls `next()`. -/
inductive Decision where
  | allowed (limitHeader remainingHeader resetHeader : Nat)
  | denied (status : Nat) (error message : String) (retryAfter : Nat)
deriving DecidableEq

instance : DecidableEq (Except String Decision) := fun a b =>
  match a, b with
  | Except.ok x, Except.ok y =>
      if h : x = y then Decidable.isTrue (by rw [h]) else
        Decidable.isFalse (by intro hh; cases hh; exact h rfl)
  | Except.error x, Except.error y =>
      if h : x = y then Decidable.isTrue (by rw [h]) else
        Decidable.isFalse (by intro hh; cases hh; exact h rfl)
  | Except.ok _, Except.error _ => Decidable.isFalse (by intro hh; cases hh)
  | Except.error _, Except.ok _ => Decidable.isFalse (by intro hh; cases hh)

/-- The 429 body message
`Rate limit exceeded. Maximum ${maxRequests} requests per ${windowMs / 1000} seconds.`
(JS divides as floats; for every policy in this file `windowMs` is a
multiple of 1000, where natural division agrees). -/
def deniedMessage (opts : RateLimitOptions) : String :=
  let m := opts.maxRequests
  let w := opts.windowMs / 1000
  s!"Rate limit exceeded. Maximum {m} requests per {w} seconds."

/-- The body of the middleware returned by `rateLimit(options)`, for one
request.  `key` is the result of `keyGenerator(req)` (default
`req.socket.remoteAddress || 'unknown'`), `now` is `Date.now()`.
`logResult` is the outcome of the `logger.warn` call and `hook` the
configured `onRateLimitReached` together with its outcome (`none` = not
configured).  The source also computes `const windowStart = now - windowMs`
but never uses it.

Steps, as in the source: get-or-create the record (replace when absent or
`now > resetTime`, with `{count: 0, resetTime: now + windowMs}`), increment
`count` (an in-place mutation of the object held by the map), then branch on
`count > maxRequests`.  On the denial path `logger.warn` runs first, then
the hook, then the 429 response with
`retryAfter: Math.ceil((resetTime - now) / 1000)`; none of it is inside a
try/catch, so a throw propagates (modelled by `Except.error`).  On the
allowed path the `X-RateLimit-Remaining` header is
`Math.max(0, maxRequests - count)`, which truncated natural subtraction
computes directly. -/
def rateLimitCheck (opts : RateLimitOptions) (hook : Option (Except String Unit))
    (logResult : Except String Unit) (key : String) (now : Nat) (s : Store) :
    Except String Decision × Store :=
  let rc0 : RequestCount :=
    match storeGet s key with
    | some old =>
        if now > old.resetTime then { count := 0, resetTime := now + opts.windowMs } else old
    | none => { count := 0, resetTime := now + opts.windowMs }
  let rc : RequestCount := { count := rc0.count + 1, resetTime := rc0.resetTime }
  let s2 : Store := storeSet s key rc
  if rc.count > opts.maxRequests then
    match logResult with
    | Except.error e => (Except.error e, s2)
    | Except.ok _ =>
      match hook with
      | some (Except.error e) => (Except.error e, s2)
      | _ =>
          (Except.ok (Decision.denied 429 "Too many requests" (deniedMessage opts)
            ((rc.resetTime - now + 999) / 1000)), s2)
  else
    (Except.ok (Decision.allowed opts.maxRequests (opts.maxRequests - rc.count)
      rc.resetTime), s2)

/-- The body of the cleanup interval: iterate over a snapshot
`Array.from(store.entries())` and `store.delete(key)` every entry with
`now > value.resetTime`.  `entries` is the snapshot, the second argument the
live store being mutated. -/
def sweepLoop : List (String × RequestCount) → Store → Nat → Store
  | [], s, _ => s
  | (k, v) :: rest, s, now =>
      sweepLoop rest (if now > v.resetTime then storeDelete s k else s) now

/-- One tick of the `setInterval(..., 60000)` cleanup task. -/
def sweep (s : Store) (now : Nat) : Store := sweepLoop s s now

/-- A sequence of middleware invocations for one key (no hook configured,
logging succeeding), threading the shared store; returns the list of
outcomes and the final store. -/
def runKeyChecks (opts : RateLimitOptions) (key : String) :
    Store → List Nat → List (Except String Decision) × Store
  | s, [] => ([], s)
  | s, t :: ts =>
      let r := rateLimitCheck opts none (Except.ok ()) key t s
      let rest := runKeyChecks opts key r.2 ts
      (r.1 :: rest.1, rest.2)

/-- `apiRateLimit = rateLimit({ windowMs: 15 * 60 * 1000, maxRequests: 100 })`. -/
def apiRateLimitOptions : RateLimitOptions :=
  { windowMs := 15 * 60 * 1000, maxRequests := 100 }

/-- `authRateLimit = rateLimit({ windowMs: 15 * 60 * 1000, maxRequests: 5 })`. -/
def authRateLimitOptions : RateLimitOptions :=
  { windowMs := 15 * 60 * 1000, maxRequests := 5 }

/-- `uploadRateLimit = rateLimit({ windowMs: 60 * 60 * 1000, maxRequests: 10 })`. -/
def uploadRateLimitOptions : RateLimitOptions :=
  { windowMs := 60 * 60 * 1000, maxRequests := 10 }

/-- `searchRateLimit = rateLimit({ windowMs: 60 * 1000, maxRequests: 30 })`. -/
def searchRateLimitOptions : RateLimitOptions :=
  { windowMs := 60 * 1000, maxRequests := 30 }

/-- Is the outcome the allowed path (headers set, `next()` called)? -/
def decisionAllowed : Except String Decision → Bool
  | Except.ok (Decision.allowed _ _ _) => true
  | _ => false

/-- The `X-RateLimit-Remaining` header of an allowed outcome. -/
def decisionRemaining : Except String Decision → Option Nat
  | Except.ok (Decision.allowed _ r _) => some r
  | _ => none

/-- The `retryAfter` field of a 429 rejection body. -/
def decisionRetryAfter : Except String Decision → Option Nat
  | Except.ok (Decision.denied _ _ _ r) => some r
  | _ => none

end RateLimiter

namespace RateLimiter

/-! ### Basic store lemmas -/

theorem storeGet_storeSet_self (s : Store) (k : String) (v : RequestCount) :
    storeGet (storeSet s k v) k = some v := by
  induction s with
  | nil => simp [storeSet, storeGet]
  | cons hd tl ih =>
      obtain ⟨hk, hv⟩ := hd
      by_cases h : hk = k <;> simp [storeSet, storeGet, h, ih]

theorem storeGet_storeSet_other (s : Store) (k k2 : String) (v : RequestCount)
    (h : k2 ≠ k) : storeGet (storeSet s k v) k2 = storeGet s k2 := by
  have hk2 : ¬ k = k2 := fun hh => h hh.symm
  induction s with
  | nil => simp [storeSet, storeGet, hk2]
  | cons hd tl ih =>
      obtain ⟨hk, hv⟩ := hd
      by_cases hh : hk = k
      · subst hh
        simp [storeSet, storeGet, hk2]
      · simp [storeSet, storeGet, hh, ih]

/-! ### One-step characterizations of the middleware body -/

/-- A check on a live record (present, `now ≤ resetTime`) always writes back
the incremented record with the same `resetTime`, whatever the decision and
whatever the logging/hook outcomes. -/
theorem check_live_store (opts : RateLimitOptions) (hook : Option (Except String Unit))
    (logResult : Except String Unit) (key : String) (t : Nat) (s : Store) (c R : Nat)
    (hrec : storeGet s key = some ⟨c, R⟩) (ht : t ≤ R) :
    (rateLimitCheck opts hook logResult key t s).2 = storeSet s key ⟨c + 1, R⟩ := by
  have h1 : ¬ t > R := by omega
  simp only [rateLimitCheck, hrec, h1, if_false]
  by_cases h2 : c + 1 > opts.maxRequests
  · simp only [h2, if_true]
    cases logResult with
    | error e => rfl
    | ok u =>
        cases hook with
        | none => rfl
        | some r => cases r with
          | error e => rfl
          | ok u2 => rfl
  · simp [h2]

/-- A check on a live record under the ceiling: the allowed path, with the
`X-RateLimit-*` headers computed from the incremented count. -/
theorem check_live_allowed (opts : RateLimitOptions) (hook : Option (Except String Unit))
    (logResult : Except String Unit) (key : String) (t : Nat) (s : Store) (c R : Nat)
    (hrec : storeGet s key = some ⟨c, R⟩) (ht : t ≤ R) (hc : c + 1 ≤ opts.maxRequests) :
    rateLimitCheck opts hook logResult key t s =
      (Except.ok (Decision.allowed opts.maxRequests (opts.maxRequests - (c + 1)) R),
        storeSet s key ⟨c + 1, R⟩) := by
  have h1 : ¬ t > R := by omega
  have h2 : ¬ c + 1 > opts.maxRequests := by omega
  simp [rateLimitCheck, hrec, h1, h2]

/-- A check on a live record over the ceiling, no hook configured and the
log call succeeding: the 429 rejection with
`retryAfter = Math.ceil((resetTime - now) / 1000)`. -/
theorem check_live_denied (opts : RateLimitOptions) (key : String) (t : Nat) (s : Store)
    (c R : Nat) (hrec : storeGet s key = some ⟨c, R⟩) (ht : t ≤ R)
    (hc : opts.maxRequests < c + 1) :
    rateLimitCheck opts none (Except.ok ()) key t s =
      (Except.ok (Decision.denied 429 "Too many requests" (deniedMessage opts)
          ((R - t + 999) / 1000)),
        storeSet s key ⟨c + 1, R⟩) := by
  have h1 : ¬ t > R := by omega
  have h2 : c + 1 > opts.maxRequests := by omega
  simp [rateLimitCheck, hrec, h1, h2]

/-- A check for an absent key always installs the record
`{count: 1, resetTime: now + windowMs}` (creation with count 0 followed by
the increment). -/
theorem check_fresh_store (opts : RateLimitOptions) (hook : Option (Except String Unit))
    (logResult : Except String Unit) (key : String) (t : Nat) (s : Store)
    (hrec : storeGet s key = none) :
    (rateLimitCheck opts hook logResult key t s).2 =
      storeSet s key ⟨1, t + opts.windowMs⟩ := by
  simp only [rateLimitCheck, hrec]
  by_cases h2 : 0 + 1 > opts.maxRequests
  · simp only [h2, if_true]
    cases logResult with
    | error e => rfl
    | ok u =>
        cases hook with
        | none => rfl
        | some r => cases r with
          | error e => rfl
          | ok u2 => rfl
  · simp [h2]

/-- A check for an absent key under a positive ceiling is allowed with
`remaining = maxRequests - 1` and `resetTime = now + windowMs`. -/
theorem check_fresh_allowed (opts : RateLimitOptions) (hook : Option (Except String Unit))
    (logResult : Except String Unit) (key : String) (t : Nat) (s : Store)
    (hrec : storeGet s key = none) (hc : 1 ≤ opts.maxRequests) :
    rateLimitCheck opts hook logResult key t s =
      (Except.ok (Decision.allowed opts.maxRequests (opts.maxRequests - 1)
          (t + opts.windowMs)),
        storeSet s key ⟨1, t + opts.windowMs⟩) := by
  have h2 : ¬ 0 + 1 > opts.maxRequests := by omega
  simp [rateLimitCheck, hrec, h2]

/-- A check on an expired record (`now > resetTime` strictly) always
replaces it with a fresh window and writes back count 1, whatever the
decision and the side-effect outcomes: renewal is unconditional. -/
theorem check_expired_store (opts : RateLimitOptions) (hook : Option (Except String Unit))
    (logResult : Except String Unit) (key : String) (t : Nat) (s : Store) (c R : Nat)
    (hrec : storeGet s key = some ⟨c, R⟩) (hR : R < t) :
    (rateLimitCheck opts hook logResult key t s).2 =
      storeSet s key ⟨1, t + opts.windowMs⟩ := by
  have h1 : t > R := by omega
  simp only [rateLimitCheck, hrec, h1, if_true]
  by_cases h2 : 0 + 1 > opts.maxRequests
  · simp only [h2, if_true]
    cases logResult with
    | error e => rfl
    | ok u =>
        cases hook with
        | none => rfl
        | some r => cases r with
          | error e => rfl
          | ok u2 => rfl
  · simp [h2]

/-- A check on an expired record under a positive ceiling is allowed with
count reset to 1, regardless of how the previous window ended. -/
theorem check_expired_allowed (opts : RateLimitOptions) (hook : Option (Except String Unit))
    (logResult : Except String Unit) (key : String) (t : Nat) (s : Store) (c R : Nat)
    (hrec : storeGet s key = some ⟨c, R⟩) (hR : R < t) (hc : 1 ≤ opts.maxRequests) :
    rateLimitCheck opts hook logResult key t s =
      (Except.ok (Decision.allowed opts.maxRequests (opts.maxRequests - 1)
          (t + opts.windowMs)),
        storeSet s key ⟨1, t + opts.windowMs⟩) := by
  have h1 : t > R := by omega
  have h2 : ¬ 0 + 1 > opts.maxRequests := by omega
  simp [rateLimitCheck, hrec, h1, h2]

end RateLimiter

namespace RateLimiter

/-! ### The cleanup tick -/

/-- Deleting keys that all differ from the head entry's key leaves the head
entry in place. -/
theorem sweepLoop_cons_of_ne (entries : List (String × RequestCount)) (k : String)
    (v : RequestCount) (s : Store) (now : Nat) (h : ∀ e ∈ entries, e.1 ≠ k) :
    sweepLoop entries ((k, v) :: s) now = (k, v) :: sweepLoop entries s now := by
  induction entries generalizing s with
  | nil => rfl
  | cons hd tl ih =>
      obtain ⟨hk, hv⟩ := hd
      have hne : ¬ k = hk := fun hh => h (hk, hv) (by simp) hh.symm
      rw [sweepLoop, sweepLoop]
      by_cases hcond : now > hv.resetTime
      · rw [if_pos hcond, if_pos hcond, storeDelete, if_neg hne]
        exact ih (storeDelete s hk) (fun e he => h e (by simp [he]))
      · rw [if_neg hcond, if_neg hcond]
        exact ih s (fun e he => h e (by simp [he]))

/-- One cleanup tick is exactly a filter: it deletes every entry with
`now > resetTime` and keeps every other entry untouched, in place. -/
theorem sweep_eq_filter (s : Store) (now : Nat) (h : storeWF s) :
    sweep s now = s.filter (fun e => decide (now ≤ e.2.resetTime)) := by
  induction s with
  | nil => rfl
  | cons hd tl ih =>
      obtain ⟨hk, hv⟩ := hd
      have h2 : (hk :: tl.map Prod.fst).Nodup := h
      rw [List.nodup_cons] at h2
      have hmem : ∀ e ∈ tl, e.1 ≠ hk := by
        intro e he hcontra
        exact h2.1 (hcontra ▸ List.mem_map_of_mem Prod.fst he)
      have htl : storeWF tl := h2.2
      rw [sweep, sweepLoop]
      by_cases hcond : now > hv.resetTime
      · rw [if_pos hcond, storeDelete, if_pos rfl]
        have hfilter : decide (now ≤ hv.resetTime) = false := by
          simp; omega
        rw [List.filter_cons]
        simp only [hfilter, Bool.false_eq_true, if_false]
        exact ih htl
      · rw [if_neg hcond]
        have hfilter : decide (now ≤ hv.resetTime) = true := by
          simp; omega
        rw [List.filter_cons]
        simp only [hfilter, if_true]
        rw [sweepLoop_cons_of_ne tl hk hv tl now hmem]
        have htail := ih htl
        rw [sweep] at htail
        rw [htail]

end RateLimiter

namespace RateLimiter

/-! ### Sequences of checks within one window -/

theorem runKeyChecks_cons (opts : RateLimitOptions) (key : String) (s : Store)
    (t : Nat) (ts : List Nat) :
    runKeyChecks opts key s (t :: ts) =
      ((rateLimitCheck opts none (Except.ok ()) key t s).1 ::
          (runKeyChecks opts key (rateLimitCheck opts none (Except.ok ()) key t s).2 ts).1,
        (runKeyChecks opts key (rateLimitCheck opts none (Except.ok ()) key t s).2 ts).2) :=
  rfl

/-- With a live record at count `c`, the `n`-th (0-indexed) of a run of
checks all falling inside the window is allowed exactly when
`c + n + 1 ≤ maxRequests`, and then reports
`remaining = maxRequests - (c + n + 1)`. -/
theorem runKeyChecks_nth_live (opts : RateLimitOptions) (key : String) (R : Nat)
    (ts : List Nat) (s : Store) (c n : Nat)
    (hrec : storeGet s key = some ⟨c, R⟩) (hts : ∀ t ∈ ts, t ≤ R) (hn : n < ts.length) :
    (decisionAllowed ((runKeyChecks opts key s ts).1.getD n (Except.error "")) = true
        ↔ c + n + 1 ≤ opts.maxRequests)
    ∧ (c + n + 1 ≤ opts.maxRequests →
        decisionRemaining ((runKeyChecks opts key s ts).1.getD n (Except.error ""))
          = some (opts.maxRequests - (c + n + 1))) := by
  induction ts generalizing s c n with
  | nil => simp at hn
  | cons t ts ih =>
      have ht : t ≤ R := hts t (by simp)
      rw [runKeyChecks_cons]
      cases n with
      | zero =>
          simp only [List.getD_cons_zero]
          by_cases hc : c + 1 ≤ opts.maxRequests
          · rw [check_live_allowed opts none (Except.ok ()) key t s c R hrec ht hc]
            refine ⟨by simp [decisionAllowed]; omega, fun h => by simp [decisionRemaining]⟩
          · have hc2 : opts.maxRequests < c + 1 := by omega
            rw [check_live_denied opts key t s c R hrec ht hc2]
            refine ⟨by simp [decisionAllowed]; omega, fun h => by omega⟩
      | succ m =>
          simp only [List.getD_cons_succ]
          rw [check_live_store opts none (Except.ok ()) key t s c R hrec ht]
          have hrec2 : storeGet (storeSet s key ⟨c + 1, R⟩) key = some ⟨c + 1, R⟩ :=
            storeGet_storeSet_self s key ⟨c + 1, R⟩
          have hts2 : ∀ u ∈ ts, u ≤ R := fun u hu => hts u (by simp [hu])
          have hm : m < ts.length := by simpa using hn
          have hstep := ih (storeSet s key ⟨c + 1, R⟩) (c + 1) m hrec2 hts2 hm
          have harith : c + (m + 1) + 1 = c + 1 + m + 1 := by omega
          rw [harith]
          exact hstep

end RateLimiter

namespace RateLimiter

/-- A check for an absent key under a zero ceiling is denied at once. -/
theorem check_fresh_denied (opts : RateLimitOptions) (key : String) (t : Nat) (s : Store)
    (hrec : storeGet s key = none) (hc : opts.maxRequests < 1) :
    rateLimitCheck opts none (Except.ok ()) key t s =
      (Except.ok (Decision.denied 429 "Too many requests" (deniedMessage opts)
          ((t + opts.windowMs - t + 999) / 1000)),
        storeSet s key ⟨1, t + opts.windowMs⟩) := by
  have h2 : 0 + 1 > opts.maxRequests := by omega
  simp [rateLimitCheck, hrec, h2]

/-! ### Claim theorems -/

/-- Claim C2: for every policy and key, with the `n`-th check (1-indexed;
`n = idx + 1` below) of a run that starts on an absent key and stays within
the window so created, the decision is Allowed iff `n ≤ maxRequests`, and
every Allowed decision reports `remaining = maxRequests - n`, never
negative (the subtraction is exact because `n ≤ maxRequests` there). -/
theorem nth_check_in_window (opts : RateLimitOptions) (key : String)
    (t0 : Nat) (ts : List Nat) (s0 : Store) (idx : Nat)
    (h0 : storeGet s0 key = none) (hts : ∀ t ∈ ts, t ≤ t0 + opts.windowMs)
    (hn : idx < (t0 :: ts).length) :
    (decisionAllowed ((runKeyChecks opts key s0 (t0 :: ts)).1.getD idx (Except.error "")) = true
        ↔ idx + 1 ≤ opts.maxRequests)
    ∧ (idx + 1 ≤ opts.maxRequests →
        decisionRemaining ((runKeyChecks opts key s0 (t0 :: ts)).1.getD idx (Except.error ""))
          = some (opts.maxRequests - (idx + 1))) := by
  rw [runKeyChecks_cons]
  cases idx with
  | zero =>
      simp only [List.getD_cons_zero]
      by_cases hc : 1 ≤ opts.maxRequests
      · rw [check_fresh_allowed opts none (Except.ok ()) key t0 s0 h0 hc]
        exact ⟨by simp [decisionAllowed]; exact hc, fun h => by simp [decisionRemaining]⟩
      · rw [check_fresh_denied opts key t0 s0 h0 (by omega)]
        exact ⟨by simp [decisionAllowed]; omega, fun h => by omega⟩
  | succ m =>
      simp only [List.getD_cons_succ]
      rw [check_fresh_store opts none (Except.ok ()) key t0 s0 h0]
      have hrec2 : storeGet (storeSet s0 key ⟨1, t0 + opts.windowMs⟩) key
          = some ⟨1, t0 + opts.windowMs⟩ :=
        storeGet_storeSet_self s0 key ⟨1, t0 + opts.windowMs⟩
      have hm : m < ts.length := by simpa using hn
      have hstep := runKeyChecks_nth_live opts key (t0 + opts.windowMs) ts
        (storeSet s0 key ⟨1, t0 + opts.windowMs⟩) 1 m hrec2 hts hm
      have harith : m + 1 + 1 = 1 + m + 1 := by omega
      rw [harith]
      exact hstep

/-- Witness for C2: with `maxRequests = 2` and checks at `t = 0, 5, 6`
inside one 60 s window, the third check (index 2) is the first denial. -/
theorem nth_check_in_window_witness :
    (decisionAllowed ((runKeyChecks ⟨60000, 2, false, false⟩ "k" [] [0, 5, 6]).1.getD 2
        (Except.error "")) = true ↔ 2 + 1 ≤ (2 : Nat))
    ∧ (2 + 1 ≤ (2 : Nat) →
        decisionRemaining ((runKeyChecks ⟨60000, 2, false, false⟩ "k" [] [0, 5, 6]).1.getD 2
          (Except.error "")) = some (2 - (2 + 1))) :=
  nth_check_in_window ⟨60000, 2, false, false⟩ "k" 0 [5, 6] [] 2 rfl (by decide) (by decide)

end RateLimiter

namespace RateLimiter

/-- Counterexample to claim C1: the source keeps ONE module-level store
shared by every limiter.  After five `apiRateLimit` checks for key
"10.0.0.1" (all far under that policy's ceiling of 100), a single
`authRateLimit` check for the same key is Denied, although on a store
untouched by the other limiter it is Allowed: the general-API calls did
affect the window record consulted by the authentication policy. -/
theorem policies_share_one_store_counterexample :
    decisionAllowed (rateLimitCheck authRateLimitOptions none (Except.ok ()) "10.0.0.1" 0
        (runKeyChecks apiRateLimitOptions "10.0.0.1" [] [0, 0, 0, 0, 0]).2).1 = false
    ∧ decisionAllowed (rateLimitCheck authRateLimitOptions none (Except.ok ()) "10.0.0.1" 0
        []).1 = true := by
  decide

/-- Claim C1 amended: all limiters share the single module-level store, so a
request counted under one policy increments the window record consulted by
any other policy for the same derived key, and can flip the other policy's
decision from Allowed to Denied. -/
theorem shared_store_cross_policy (o1 o2 : RateLimitOptions) (key : String) (now : Nat)
    (s : Store) (c R : Nat) (hrec : storeGet s key = some ⟨c, R⟩) (hlive : now ≤ R)
    (h1 : c + 1 ≤ o2.maxRequests) (h2 : o2.maxRequests < c + 2) :
    storeGet (rateLimitCheck o1 none (Except.ok ()) key now s).2 key = some ⟨c + 1, R⟩
    ∧ decisionAllowed (rateLimitCheck o2 none (Except.ok ()) key now s).1 = true
    ∧ decisionAllowed (rateLimitCheck o2 none (Except.ok ()) key now
        (rateLimitCheck o1 none (Except.ok ()) key now s).2).1 = false := by
  have hstore : (rateLimitCheck o1 none (Except.ok ()) key now s).2
      = storeSet s key ⟨c + 1, R⟩ :=
    check_live_store o1 none (Except.ok ()) key now s c R hrec hlive
  refine ⟨?_, ?_, ?_⟩
  · rw [hstore]
    exact storeGet_storeSet_self s key ⟨c + 1, R⟩
  · rw [check_live_allowed o2 none (Except.ok ()) key now s c R hrec hlive h1]
    rfl
  · rw [hstore]
    rw [check_live_denied o2 key now (storeSet s key ⟨c + 1, R⟩) (c + 1) R
      (storeGet_storeSet_self s key ⟨c + 1, R⟩) hlive (by omega)]
    rfl

/-- Witness for the amended C1, at the registry policies: with the shared
record for "k" at count 4 in a live auth window, a general-API call bumps it
to 5 and the following auth call is Denied, while without the general-API
call it would have been Allowed. -/
theorem shared_store_cross_policy_witness :
    storeGet (rateLimitCheck apiRateLimitOptions none (Except.ok ()) "k" 0
        [("k", ⟨4, 900000⟩)]).2 "k" = some ⟨5, 900000⟩
    ∧ decisionAllowed (rateLimitCheck authRateLimitOptions none (Except.ok ()) "k" 0
        [("k", ⟨4, 900000⟩)]).1 = true
    ∧ decisionAllowed (rateLimitCheck authRateLimitOptions none (Except.ok ()) "k" 0
        (rateLimitCheck apiRateLimitOptions none (Except.ok ()) "k" 0
          [("k", ⟨4, 900000⟩)]).2).1 = false :=
  shared_store_cross_policy apiRateLimitOptions authRateLimitOptions "k" 0
    [("k", ⟨4, 900000⟩)] 4 900000 rfl (by decide) (by decide) (by decide)

/-- Counterexample to claim C3: with `maxRequests = 0` and a configured
`onRateLimitReached` hook that throws, the middleware does NOT catch the
failure and return the admission decision — the exception propagates and no
429 response is produced, while the same call with a well-behaved hook
returns the Denied decision. -/
theorem hook_failure_counterexample :
    (rateLimitCheck ⟨60000, 0, false, false⟩ (some (Except.error "hook failed"))
        (Except.ok ()) "k" 0 []).1 = Except.error "hook failed"
    ∧ (rateLimitCheck ⟨60000, 0, false, false⟩ (some (Except.ok ()))
        (Except.ok ()) "k" 0 []).1
      = Except.ok (Decision.denied 429 "Too many requests"
          "Rate limit exceeded. Maximum 0 requests per 60 seconds." 60)
    ∧ ¬ (rateLimitCheck ⟨60000, 0, false, false⟩ (some (Except.error "hook failed"))
          (Except.ok ()) "k" 0 []).1
        = (rateLimitCheck ⟨60000, 0, false, false⟩ (some (Except.ok ()))
            (Except.ok ()) "k" 0 []).1 := by
  refine ⟨rfl, rfl, ?_⟩
  decide

/-- Claim C3 amended: failures of the logging collaborator or of the audit
hook on the denial path are NOT caught inside the limiter: they propagate
out of the check, the admission decision is not returned, and only the
already-performed count increment survives in the store. -/
theorem side_effect_failures_propagate (opts : RateLimitOptions) (key : String)
    (t : Nat) (s : Store) (c R : Nat) (e : String)
    (hrec : storeGet s key = some ⟨c, R⟩) (ht : t ≤ R) (hc : opts.maxRequests < c + 1) :
    rateLimitCheck opts (some (Except.ok ())) (Except.error e) key t s
        = (Except.error e, storeSet s key ⟨c + 1, R⟩)
    ∧ rateLimitCheck opts (some (Except.error e)) (Except.ok ()) key t s
        = (Except.error e, storeSet s key ⟨c + 1, R⟩) := by
  have h1 : ¬ t > R := by omega
  have h2 : c + 1 > opts.maxRequests := by omega
  constructor <;> simp [rateLimitCheck, hrec, h1, h2]

/-- Witness for the amended C3 at a concrete over-limit state. -/
theorem side_effect_failures_propagate_witness :
    rateLimitCheck ⟨60000, 1, false, false⟩ (some (Except.ok ())) (Except.error "log down")
        "k" 10 [("k", ⟨1, 500⟩)] = (Except.error "log down", [("k", ⟨2, 500⟩)])
    ∧ rateLimitCheck ⟨60000, 1, false, false⟩ (some (Except.error "log down")) (Except.ok ())
        "k" 10 [("k", ⟨1, 500⟩)] = (Except.error "log down", [("k", ⟨2, 500⟩)]) :=
  side_effect_failures_propagate ⟨60000, 1, false, false⟩ "k" 10 [("k", ⟨1, 500⟩)] 1 500
    "log down" rfl (by decide) (by decide)

end RateLimiter

namespace RateLimiter

/-- Counterexample to claim C4: with a record `{count: 3, resetAt: 100}` and
a check arriving exactly at `now == resetAt == 100` under a ceiling of 3,
the source does NOT install a fresh record (the renewal test `now >
resetTime` is strict): the old record is incremented to count 4 and the
request is Denied, whereas a fresh window would have meant
`{count: 1, resetAt: 60100}` and Allowed. -/
theorem boundary_counterexample :
    (rateLimitCheck ⟨60000, 3, false, false⟩ none (Except.ok ()) "k" 100
        [("k", ⟨3, 100⟩)]).2 = [("k", ⟨4, 100⟩)]
    ∧ decisionAllowed (rateLimitCheck ⟨60000, 3, false, false⟩ none (Except.ok ()) "k" 100
        [("k", ⟨3, 100⟩)]).1 = false
    ∧ ¬ (rateLimitCheck ⟨60000, 3, false, false⟩ none (Except.ok ()) "k" 100
        [("k", ⟨3, 100⟩)]).2 = [("k", ⟨1, 60100⟩)] := by
  refine ⟨rfl, rfl, ?_⟩
  decide

/-- Claim C4 amended: a check arriving exactly at `now == resetAt` still
belongs to the OLD window — the record is kept and incremented (renewal
happens only strictly after `resetAt`), and the decision is still governed
by the accumulated count. -/
theorem boundary_belongs_to_old_window (opts : RateLimitOptions) (key : String)
    (s : Store) (c R : Nat) (hrec : storeGet s key = some ⟨c, R⟩) :
    (rateLimitCheck opts none (Except.ok ()) key R s).2 = storeSet s key ⟨c + 1, R⟩
    ∧ decisionAllowed (rateLimitCheck opts none (Except.ok ()) key R s).1
        = decide (c + 1 ≤ opts.maxRequests) := by
  refine ⟨check_live_store opts none (Except.ok ()) key R s c R hrec (le_refl R), ?_⟩
  by_cases hc : c + 1 ≤ opts.maxRequests
  · rw [check_live_allowed opts none (Except.ok ()) key R s c R hrec (le_refl R) hc]
    simp [decisionAllowed, hc]
  · rw [check_live_denied opts key R s c R hrec (le_refl R) (by omega)]
    simp [decisionAllowed, hc]

/-- Witness for the amended C4 at the concrete boundary state above. -/
theorem boundary_belongs_to_old_window_witness :
    (rateLimitCheck ⟨60000, 3, false, false⟩ none (Except.ok ()) "k" 100
        [("k", ⟨3, 100⟩)]).2 = storeSet [("k", ⟨3, 100⟩)] "k" ⟨4, 100⟩
    ∧ decisionAllowed (rateLimitCheck ⟨60000, 3, false, false⟩ none (Except.ok ()) "k" 100
        [("k", ⟨3, 100⟩)]).1 = decide (3 + 1 ≤ (3 : Nat)) :=
  boundary_belongs_to_old_window ⟨60000, 3, false, false⟩ "k" [("k", ⟨3, 100⟩)] 3 100 rfl

/-- Counterexample to claim C5: under the policy `maxRequests = 0`, the
first check after the old window expired does install a fresh record with
count 1, but it is Denied, not Allowed as the claim states for every
policy. -/
theorem renewal_counterexample :
    (rateLimitCheck ⟨60000, 0, false, false⟩ none (Except.ok ()) "k" 100
        [("k", ⟨7, 50⟩)]).2 = [("k", ⟨1, 60100⟩)]
    ∧ decisionAllowed (rateLimitCheck ⟨60000, 0, false, false⟩ none (Except.ok ()) "k" 100
        [("k", ⟨7, 50⟩)]).1 = false := by
  decide

/-- Claim C5 amended: for every key in any prior state, the first check
after `resetAt` has elapsed unconditionally installs a fresh record with
count 1 (independent of prior denial state), and it is Allowed provided
`maxRequests ≥ 1`. -/
theorem window_renewal_after_expiry (opts : RateLimitOptions) (key : String)
    (s : Store) (c R t : Nat) (hrec : storeGet s key = some ⟨c, R⟩) (hR : R < t) :
    (rateLimitCheck opts none (Except.ok ()) key t s).2
        = storeSet s key ⟨1, t + opts.windowMs⟩
    ∧ (1 ≤ opts.maxRequests →
        (rateLimitCheck opts none (Except.ok ()) key t s).1
          = Except.ok (Decision.allowed opts.maxRequests (opts.maxRequests - 1)
              (t + opts.windowMs))) := by
  refine ⟨check_expired_store opts none (Except.ok ()) key t s c R hrec hR, fun hmax => ?_⟩
  rw [check_expired_allowed opts none (Except.ok ()) key t s c R hrec hR hmax]

/-- Witness for the amended C5: a key that was deep into denial (count 9
with ceiling 3) is renewed and Allowed by the first check after expiry. -/
theorem window_renewal_after_expiry_witness :
    (rateLimitCheck ⟨60000, 3, false, false⟩ none (Except.ok ()) "k" 200
        [("k", ⟨9, 150⟩)]).2 = storeSet [("k", ⟨9, 150⟩)] "k" ⟨1, 60200⟩
    ∧ (1 ≤ (3 : Nat) →
        (rateLimitCheck ⟨60000, 3, false, false⟩ none (Except.ok ()) "k" 200
          [("k", ⟨9, 150⟩)]).1 = Except.ok (Decision.allowed 3 (3 - 1) 60200)) :=
  window_renewal_after_expiry ⟨60000, 3, false, false⟩ "k" [("k", ⟨9, 150⟩)] 9 150 200
    rfl (by decide)

/-- Claim C6: every Denied decision in a live window carries
`retryAfterSeconds = ceil((resetAt - now) / 1000)` — witnessed by the exact
natural-number formula together with the two inequalities that pin it down
as the ceiling — the value is non-negative (a natural number), and it is
monotonically non-increasing as `now` approaches `resetAt`. -/
theorem retry_after_ceiling_monotone (opts : RateLimitOptions) (key : String)
    (s : Store) (c R t1 t2 : Nat) (hrec : storeGet s key = some ⟨c, R⟩)
    (hc : opts.maxRequests < c + 1) (h12 : t1 ≤ t2) (h2R : t2 ≤ R) :
    decisionRetryAfter (rateLimitCheck opts none (Except.ok ()) key t1 s).1
        = some ((R - t1 + 999) / 1000)
    ∧ decisionRetryAfter (rateLimitCheck opts none (Except.ok ()) key t2 s).1
        = some ((R - t2 + 999) / 1000)
    ∧ R - t1 ≤ 1000 * ((R - t1 + 999) / 1000)
    ∧ 1000 * ((R - t1 + 999) / 1000) < (R - t1) + 1000
    ∧ (R - t2 + 999) / 1000 ≤ (R - t1 + 999) / 1000 := by
  have ht1 : t1 ≤ R := le_trans h12 h2R
  refine ⟨?_, ?_, ?_, ?_, ?_⟩
  · rw [check_live_denied opts key t1 s c R hrec ht1 hc]
    rfl
  · rw [check_live_denied opts key t2 s c R hrec h2R hc]
    rfl
  · have hd := Nat.div_add_mod (R - t1 + 999) 1000
    have hm := Nat.mod_lt (R - t1 + 999) (show 0 < 1000 by omega)
    omega
  · have hd := Nat.div_add_mod (R - t1 + 999) 1000
    have hm := Nat.mod_lt (R - t1 + 999) (show 0 < 1000 by omega)
    omega
  · exact Nat.div_le_div_right (by omega)

/-- Witness for C6: over-limit key with the window ending at 1000 ms;
denials at `now = 0` and `now = 500` report 1 second each, non-increasing. -/
theorem retry_after_ceiling_monotone_witness :
    decisionRetryAfter (rateLimitCheck ⟨60000, 1, false, false⟩ none (Except.ok ()) "k" 0
        [("k", ⟨5, 1000⟩)]).1 = some ((1000 - 0 + 999) / 1000)
    ∧ decisionRetryAfter (rateLimitCheck ⟨60000, 1, false, false⟩ none (Except.ok ()) "k" 500
        [("k", ⟨5, 1000⟩)]).1 = some ((1000 - 500 + 999) / 1000)
    ∧ 1000 - 0 ≤ 1000 * ((1000 - 0 + 999) / 1000)
    ∧ 1000 * ((1000 - 0 + 999) / 1000) < (1000 - 0) + 1000
    ∧ (1000 - 500 + 999) / 1000 ≤ (1000 - 0 + 999) / 1000 :=
  retry_after_ceiling_monotone ⟨60000, 1, false, false⟩ "k" [("k", ⟨5, 1000⟩)] 5 1000 0 500
    rfl (by decide) (by decide) (by decide)

end RateLimiter

namespace RateLimiter

/-- Claim C7: one cleanup tick removes exactly the records whose `resetAt`
is in the past (`resetAt < now`, the code tests `now > resetTime`) and
leaves every other record untouched in place — stated as equality with the
filter keeping `now ≤ resetTime`, so afterwards no expired record remains
and every key cold for longer than its window (whose `resetAt` necessarily
lies in the past) is absent. -/
theorem sweep_removes_exactly_expired (s : Store) (now : Nat) (h : storeWF s) :
    sweep s now = s.filter (fun e => decide (now ≤ e.2.resetTime))
    ∧ (sweep s now).all (fun e => decide (now ≤ e.2.resetTime)) = true := by
  have hf := sweep_eq_filter s now h
  refine ⟨hf, ?_⟩
  rw [hf, List.all_eq_true]
  intro e he
  exact (List.mem_filter.mp he).2

/-- Witness for C7: a store with one expired and two live records; the tick
drops exactly the expired one. -/
theorem sweep_removes_exactly_expired_witness :
    sweep [("a", ⟨1, 10⟩), ("b", ⟨2, 99⟩), ("c", ⟨3, 50⟩)] 50
        = List.filter (fun e => decide (50 ≤ e.2.resetTime))
            [("a", ⟨1, 10⟩), ("b", ⟨2, 99⟩), ("c", ⟨3, 50⟩)]
    ∧ (sweep [("a", ⟨1, 10⟩), ("b", ⟨2, 99⟩), ("c", ⟨3, 50⟩)] 50).all
        (fun e => decide (50 ≤ e.2.resetTime)) = true :=
  sweep_removes_exactly_expired [("a", ⟨1, 10⟩), ("b", ⟨2, 99⟩), ("c", ⟨3, 50⟩)] 50
    (by decide)

/-- Counterexample to claim C8: in the spec scenario (window 60000 ms,
ceiling 3, checks at t = 0, 10, 20, 30 ms), the fourth check is Denied with
`retryAfter = ceil((60000 - 30) / 1000) = 60`, not 30 as the claim states
(30 would correspond to `t = 30000`). -/
theorem scenario_retry_counterexample :
    decisionRetryAfter ((runKeyChecks ⟨60000, 3, false, false⟩ "A" [] [0, 10, 20, 30]).1.getD 3
        (Except.error "")) = some 60
    ∧ ¬ decisionRetryAfter ((runKeyChecks ⟨60000, 3, false, false⟩ "A" []
        [0, 10, 20, 30]).1.getD 3 (Except.error "")) = some 30 := by
  decide

/-- Claim C8 amended: under `{windowMs = 60000, maxRequests = 3}` on a fresh
store, checks for "A" at t = 0, 10, 20 are Allowed with remaining 2, 1, 0;
the fourth at t = 30 is Denied with `retryAfterSeconds = 60` (not 30); the
fifth at t = 61000 renews the window and is Allowed with remaining 2. -/
theorem scenario_run :
    runKeyChecks ⟨60000, 3, false, false⟩ "A" [] [0, 10, 20, 30, 61000] =
      ([Except.ok (Decision.allowed 3 2 60000),
        Except.ok (Decision.allowed 3 1 60000),
        Except.ok (Decision.allowed 3 0 60000),
        Except.ok (Decision.denied 429 "Too many requests"
          "Rate limit exceeded. Maximum 3 requests per 60 seconds." 60),
        Except.ok (Decision.allowed 3 2 121000)],
       [("A", ⟨1, 121000⟩)]) := by
  decide

/-- Claim C10: the `skipSuccessfulRequests` and `skipFailedRequests` flags
are destructured but never consulted: two checks differing only in these
flags return the identical outcome (decision, body fields, headers) and the
identical store, for every key, time, store state and side-effect
behaviour. -/
theorem skip_flags_never_consulted (w m : Nat) (a b a2 b2 : Bool)
    (hook : Option (Except String Unit)) (logResult : Except String Unit)
    (key : String) (now : Nat) (s : Store) :
    rateLimitCheck ⟨w, m, a, b⟩ hook logResult key now s
      = rateLimitCheck ⟨w, m, a2, b2⟩ hook logResult key now s := rfl

end RateLimiter
